import Mathlib

/-!
Verification of the NanoGUI `Shader` abstraction (`include/nanogui/shader.h`).

The header defines the compile-time type classifier `get_type<T>` and the
generic uniform-binding facade `Shader::set_uniform` in full; the remaining
operations (`set_buffer`, `begin`, `end`, `draw_array`) and the `type_size`
lookup are only declared there, their implementations living in the backend
sources, so those are modelled from the specification and marked as such.
-/

namespace Nanogui

/-- The closed runtime tag enumeration for scalar kinds
(`enum class VariableType`, shader.h lines 24-26). -/
inductive VariableType where
  | Invalid
  | Int8
  | UInt8
  | Int16
  | UInt16
  | Int32
  | UInt32
  | Int64
  | UInt64
  | Float16
  | Float32
  | Float64
  | Bool
deriving DecidableEq

/-- The compile-time traits of a C++ native scalar type `T` that
`get_type<T>()` consults: `std::is_same_v<T, bool>`, `is_integral_v<T>`,
`std::is_floating_point_v<T>`, `std::is_signed_v<T>` and `sizeof(T)`. -/
structure NativeType where
  isBool : Bool
  isIntegral : Bool
  isFloat : Bool
  isSigned : Bool
  size : Nat
deriving DecidableEq

/-- Coherence facts that every actual C++ scalar type satisfies:
`bool` is an unsigned integral type of size one, and no type is both
integral and floating-point. -/
def NativeType.wf (T : NativeType) : Prop :=
  (T.isBool = true → T.isIntegral = true ∧ T.isFloat = false ∧ T.size = 1) ∧
  (T.isIntegral = true → T.isFloat = false)

instance (T : NativeType) : Decidable T.wf := by
  unfold NativeType.wf; infer_instance

/-- The classifier `get_type<T>()` (shader.h lines 28-51): classify a native type by its
compile-time traits.  The `bool` test returns first; then integral types
dispatch on byte width and signedness, floating types on byte width, and
everything else falls through to `Invalid`. -/
def get_type (T : NativeType) : VariableType :=
  if T.isBool then VariableType.Bool
  else if T.isIntegral then
    if T.size = 1 then (if T.isSigned then VariableType.Int8 else VariableType.UInt8)
    else if T.size = 2 then (if T.isSigned then VariableType.Int16 else VariableType.UInt16)
    else if T.size = 4 then (if T.isSigned then VariableType.Int32 else VariableType.UInt32)
    else if T.size = 8 then (if T.isSigned then VariableType.Int64 else VariableType.UInt64)
    else VariableType.Invalid
  else if T.isFloat then
    if T.size = 2 then VariableType.Float16
    else if T.size = 4 then VariableType.Float32
    else if T.size = 8 then VariableType.Float64
    else VariableType.Invalid
  else VariableType.Invalid

/-- Modelled from the spec: the implementation of `type_size` is not under
src/ (shader.h line 54 only declares it).  Spec 4.1: "`byte_size(VariableType)
-> size_t`: fixed lookup table, one entry per tag, `Invalid` maps to 0";
each tag's byte size is the width encoded in its name (`Bool` is one byte). -/
def type_size : VariableType → Nat
  | VariableType.Invalid => 0
  | VariableType.Int8 => 1
  | VariableType.UInt8 => 1
  | VariableType.Int16 => 2
  | VariableType.UInt16 => 2
  | VariableType.Int32 => 4
  | VariableType.UInt32 => 4
  | VariableType.Int64 => 8
  | VariableType.UInt64 => 8
  | VariableType.Float16 => 2
  | VariableType.Float32 => 4
  | VariableType.Float64 => 8
  | VariableType.Bool => 1

/-- The C++ type `bool` as seen by the classifier. -/
def cppBool : NativeType := ⟨true, true, false, false, 1⟩

/-- The C++ type `uint32_t` as seen by the classifier. -/
def cppUInt32 : NativeType := ⟨false, true, false, false, 4⟩

/-- The C++ type `int16_t` as seen by the classifier. -/
def cppInt16 : NativeType := ⟨false, true, false, true, 2⟩

/-- The C++ type `float` as seen by the classifier (`std::is_signed_v<float>` is true,
which the float branch of `get_type` never consults). -/
def cppFloat32 : NativeType := ⟨false, false, true, true, 4⟩

/-- The enumeration `Shader::PrimitiveType` (shader.h lines 62-68). -/
inductive PrimitiveType where
  | Point
  | Line
  | LineStrip
  | Triangle
  | TriangleStrip
deriving DecidableEq

/-- The enumeration `Shader::BufferType` (shader.h lines 220-230). -/
inductive BufferType where
  | Unknown
  | VertexBuffer
  | VertexTexture
  | VertexSampler
  | FragmentBuffer
  | FragmentTexture
  | FragmentSampler
  | UniformBuffer
  | IndexBuffer
deriving DecidableEq

/-- A fixed `std::array<size_t, 3>` as used for shapes. -/
structure Arr3 where
  a0 : Nat
  a1 : Nat
  a2 : Nat
deriving DecidableEq

/-- The quantity `product(shape[0..ndim))`: the number of scalar elements described by a
shape together with a dimension count (spec 3, invariant on `size`). -/
def Arr3.prodTake (sh : Arr3) : Nat → Nat
  | 0 => 1
  | 1 => sh.a0
  | 2 => sh.a0 * sh.a1
  | _ => sh.a0 * sh.a1 * sh.a2

/-- The metadata of `struct Shader::Buffer` (shader.h lines 232-243) that the
registry carries per name.  The backend-resource pointer is not modelled;
`data` records the CPU payload pointer handed to `set_buffer`, with `none`
standing for an indeterminate (never-assigned) pointer. -/
structure Buffer where
  btype : BufferType
  dtype : VariableType
  ndim : Nat
  shape : Arr3
  size : Nat
  dirty : Bool
  data : Option Nat
deriving DecidableEq

/-- Errors surfaced by the Shader operations (spec 7, error taxonomy). -/
inductive ShaderError where
  | UnknownParameter
  | InvalidDimension
  | StateViolation
  | MissingBinding
  | InvalidCount
deriving DecidableEq

/-- First-match lookup in an association list, the model of
`std::unordered_map::find`. -/
def findVal {α : Type} (n : String) : List (String × α) → Option α
  | [] => none
  | (k, v) :: rest => if k = n then some v else findVal n rest

/-- Insert-or-replace on an association list, the model of
`std::unordered_map::operator[] =`: the first entry with the key is
overwritten in place, and a missing key is appended. -/
def insertReplace {α : Type} (n : String) (b : α) : List (String × α) → List (String × α)
  | [] => [(n, b)]
  | (k, v) :: rest => if k = n then (n, b) :: rest else (k, v) :: insertReplace n b rest

/-- The Shader state the claims are about: the declared program interface
(resolved at construction, spec 3 on `BufferType`), the parameter registry
`m_buffers` (shader.h line 251), and the Active/Inactive drawing state
(spec 4.5). -/
structure Shader where
  declared : List (String × BufferType)
  m_buffers : List (String × Buffer)
  active : Bool
deriving DecidableEq

/-- Modelled from the spec: the implementation of `Shader::set_buffer` is not
under src/ (shader.h lines 117-118 only declare it).  Spec 4.2: "registers or
replaces the named parameter", "fails with an unknown-parameter error if the
name was not declared by either shader stage" (registry left unmodified,
spec 7), records `size = byte_size(dtype) * product(shape[0..ndim))`
(spec 3) and "marks the entry dirty". -/
def Shader.set_buffer (s : Shader) (name : String) (dtype : VariableType)
    (ndim : Nat) (shape : Arr3) (data : Option Nat) : Except ShaderError Shader :=
  match findVal name s.declared with
  | none => Except.error ShaderError.UnknownParameter
  | some bt =>
      let buf : Buffer :=
        ⟨bt, dtype, ndim, shape, type_size dtype * shape.prodTake ndim, true, data⟩
      Except.ok { s with m_buffers := insertReplace name buf s.m_buffers }

/-- Whether every parameter declared by the compiled program has been bound
(spec 4.5, precondition of `begin`). -/
def Shader.allBound (s : Shader) : Bool :=
  s.declared.all (fun p => (findVal p.1 s.m_buffers).isSome)

/-- Modelled from the spec: the implementation of `Shader::begin` is not
under src/ (shader.h line 180 only declares it).  Spec 4.5: transition
`Inactive → Active`, upload all dirty buffers and clear their dirty flags;
fails if called while already Active (state violation) or if a declared
parameter was never bound.  A failure throws, leaving the object unchanged. -/
def Shader.begin (s : Shader) : Except ShaderError Shader :=
  if s.active then Except.error ShaderError.StateViolation
  else if s.allBound then
    Except.ok { s with
      active := true,
      m_buffers := s.m_buffers.map (fun p => (p.1, { p.2 with dirty := false })) }
  else Except.error ShaderError.MissingBinding

/-- Modelled from the spec: the implementation of `Shader::end` is not under
src/ (shader.h line 183 only declares it).  Spec 4.5: transition
`Active → Inactive`; calling it while Inactive is a usage error. -/
def Shader.end' (s : Shader) : Except ShaderError Shader :=
  if s.active then Except.ok { s with active := false }
  else Except.error ShaderError.StateViolation

/-- Whether a buffer named `indices` holding unsigned 32-bit integers is
bound (spec 3: "Index buffers are identified by the reserved name `indices`
and must hold 32-bit unsigned integers"). -/
def Shader.hasIndexBuffer (s : Shader) : Bool :=
  match findVal "indices" s.m_buffers with
  | some b => b.dtype == VariableType.UInt32
  | none => false

/-- Modelled from the spec: the implementation of `Shader::draw_array` is not
under src/ (shader.h lines 205-207 only declare it).  Spec 4.5: valid only in
the Active state; for non-strip Line/Triangle topologies `count` must be a
multiple of 2 or 3 respectively; with `indexed` a uint32 buffer named
`indices` must already be bound.  Any violation is reported and no draw is
issued; the operation never mutates the registry or the state. -/
def Shader.draw_array (s : Shader) (pt : PrimitiveType) (offset count : Nat)
    (indexed : Bool) : Except ShaderError Unit :=
  if s.active = false then Except.error ShaderError.StateViolation
  else if pt = PrimitiveType.Line ∧ count % 2 ≠ 0 then
    Except.error ShaderError.InvalidCount
  else if pt = PrimitiveType.Triangle ∧ count % 3 ≠ 0 then
    Except.error ShaderError.InvalidCount
  else if indexed ∧ s.hasIndexBuffer = false then
    Except.error ShaderError.MissingBinding
  else
    let _ := offset
    Except.ok ()

/-- An argument handed to `Shader::set_uniform`, by the compile-time category
the template distinguishes (shader.h lines 131-155): a native scalar
(`std::is_scalar_v`), a builtin fixed-size one-dimensional array
(`IsBuiltinArray`, with element type `Array::Value` and static length
`Array::Size`), an Enoki nested array (`IsEnokiArray`, with scalar type
`Array::Scalar`, static depth `Array::Depth` and the extents returned by
`value.size()`, `value[0].size()`, `value[0][0].size()`), or a type in none
of these categories.  `ptr` stands for the address of the value's storage
(`&value` resp. `value.data()`). -/
inductive UniformValue where
  | scalar (ty : NativeType) (ptr : Nat)
  | builtin (elemTy : NativeType) (len : Nat) (ptr : Nat)
  | enoki (scalarTy : NativeType) (depth : Nat) (s0 s1 s2 : Nat) (ptr : Nat)
  | other
deriving DecidableEq

/-- The local variables of `Shader::set_uniform` after the classification
chain (shader.h lines 126-155).  `data` and `vtype` are declared without an
initializer; `none` models a local the chain never assigned. -/
structure UniformLocals where
  shape : Arr3
  ndim : Nat
  data : Option Nat
  vtype : Option VariableType
deriving DecidableEq

/-- The value `(size_t) -1`, the sentinel `ndim` starts from (shader.h line 127). -/
def sentinel : Nat := 2 ^ 64 - 1

/-- The classification chain of `Shader::set_uniform` (shader.h lines
126-155), transcribed branch by branch: shape starts `{1, 1, 1}` and `ndim`
starts at the sentinel; a scalar sets `data`, `ndim = 0` and `vtype`; a
builtin array sets `ndim = 1`, `shape[0] = Array::Size` and `vtype` (the
source assigns `data` on no path of this branch); an Enoki array sets
`ndim`/`shape` for static depth 1, 2 or 3 (leaving the sentinel otherwise)
and then sets `data` and `vtype` unconditionally. -/
def classify_uniform (v : UniformValue) : UniformLocals :=
  let init : UniformLocals := ⟨⟨1, 1, 1⟩, sentinel, none, none⟩
  match v with
  | UniformValue.scalar ty ptr =>
      { init with data := some ptr, ndim := 0, vtype := some (get_type ty) }
  | UniformValue.builtin elemTy len _ptr =>
      { init with ndim := 1, shape := ⟨len, 1, 1⟩, vtype := some (get_type elemTy) }
  | UniformValue.enoki scalarTy depth s0 s1 s2 ptr =>
      let l :=
        if depth = 1 then { init with shape := ⟨s0, 1, 1⟩, ndim := 1 }
        else if depth = 2 then { init with shape := ⟨s0, s1, 1⟩, ndim := 2 }
        else if depth = 3 then { init with shape := ⟨s0, s1, s2⟩, ndim := 3 }
        else init
      { l with data := some ptr, vtype := some (get_type scalarTy) }
  | UniformValue.other => init

/-- The facade `Shader::set_uniform` (shader.h lines 124-161): classify the value, throw
`"invalid input array dimension"` if `ndim` still carries the sentinel, and
otherwise forward `(vtype, ndim, shape, data)` to `set_buffer`.  On every
non-throwing path `vtype` has been assigned, so the default fed to `getD`
is never used. -/
def Shader.set_uniform (s : Shader) (name : String) (v : UniformValue) :
    Except ShaderError Shader :=
  let l := classify_uniform v
  if l.ndim = sentinel then Except.error ShaderError.InvalidDimension
  else s.set_buffer name (l.vtype.getD VariableType.Invalid) l.ndim l.shape l.data

/-- The spec's wording of which values `set_uniform` accepts, for comparison
with the source's throw condition: "a scalar, a fixed-size one-dimensional
array-like, or a nested array-like of depth 1 to 3" (claim C6); anything
else must raise the invalid-dimension error. -/
def specClassifiable : UniformValue → Bool
  | UniformValue.scalar _ _ => true
  | UniformValue.builtin _ _ _ => true
  | UniformValue.enoki _ depth _ _ _ _ => depth == 1 || depth == 2 || depth == 3
  | UniformValue.other => false

/-- The number of registry entries carrying a given name. -/
def keyCount (n : String) (l : List (String × Buffer)) : Nat :=
  (l.filter (fun p => p.1 = n)).length

/-- A one-parameter shader used to instantiate the replacement theorem. -/
def wShader : Shader := ⟨[("a", BufferType.UniformBuffer)], [], false⟩

/-- The binding produced by the first witness call. -/
def wBuf1 : Buffer :=
  ⟨BufferType.UniformBuffer, VariableType.Float32, 1, ⟨3, 1, 1⟩,
    type_size VariableType.Float32 * Arr3.prodTake ⟨3, 1, 1⟩ 1, true, some 7⟩

/-- The binding produced by the second witness call. -/
def wBuf2 : Buffer :=
  ⟨BufferType.UniformBuffer, VariableType.Int32, 0, ⟨1, 1, 1⟩,
    type_size VariableType.Int32 * Arr3.prodTake ⟨1, 1, 1⟩ 0, true, some 9⟩

/-- The registry state after the two witness calls. -/
def wShader2 : Shader :=
  ⟨[("a", BufferType.UniformBuffer)],
    insertReplace "a" wBuf2 (insertReplace "a" wBuf1 []), false⟩

/-- A shader declaring one uniform parameter `mvp`, used to instantiate the
matrix round-trip. -/
def wMatShader : Shader := ⟨[("mvp", BufferType.UniformBuffer)], [], false⟩

/-- The state of `wMatShader` after uploading a 4x4 float matrix under
`mvp`. -/
def wMatShader2 : Shader :=
  ⟨[("mvp", BufferType.UniformBuffer)],
    insertReplace "mvp"
      ⟨BufferType.UniformBuffer, VariableType.Float32, 2, ⟨4, 4, 1⟩,
        type_size VariableType.Float32 * Arr3.prodTake ⟨4, 4, 1⟩ 2, true, some 5⟩
      [], false⟩

/-- An inactive shader with nothing declared, for the state machine. -/
def wInactive : Shader := ⟨[], [], false⟩

/-- An active shader with nothing declared, for the state machine. -/
def wActive : Shader := ⟨[], [], true⟩

/-- An active shader declaring the reserved `indices` parameter that has not
been bound yet. -/
def wIdxShader : Shader := ⟨[("indices", BufferType.IndexBuffer)], [], true⟩

/-- The state of `wIdxShader` after binding a 6-element uint32 buffer under `indices`. -/
def wIdxShader2 : Shader :=
  ⟨[("indices", BufferType.IndexBuffer)],
    insertReplace "indices"
      ⟨BufferType.IndexBuffer, VariableType.UInt32, 1, ⟨6, 1, 1⟩,
        type_size VariableType.UInt32 * Arr3.prodTake ⟨6, 1, 1⟩ 1, true, some 0⟩
      [], true⟩

/-- Claim C1: for every native scalar type `T`, `get_type` returns `Bool`
when `T` is `bool`; the unique integer tag matching `T`'s signedness and
byte width when `T` is integral of width 1, 2, 4 or 8; the unique float tag
matching `T`'s byte width when `T` is floating-point of width 2, 4 or 8; and
`Invalid` for any other type.  For every recognized `T`, `type_size` of the
resulting tag equals `sizeof(T)`. -/
theorem get_type_classifies (T : NativeType) (h : T.wf) :
    (T.isBool = true → get_type T = VariableType.Bool) ∧
    (T.isBool = false → T.isIntegral = true →
      get_type T =
        (if T.size = 1 then (if T.isSigned then VariableType.Int8 else VariableType.UInt8)
         else if T.size = 2 then (if T.isSigned then VariableType.Int16 else VariableType.UInt16)
         else if T.size = 4 then (if T.isSigned then VariableType.Int32 else VariableType.UInt32)
         else if T.size = 8 then (if T.isSigned then VariableType.Int64 else VariableType.UInt64)
         else VariableType.Invalid)) ∧
    (T.isFloat = true →
      get_type T =
        (if T.size = 2 then VariableType.Float16
         else if T.size = 4 then VariableType.Float32
         else if T.size = 8 then VariableType.Float64
         else VariableType.Invalid)) ∧
    (T.isBool = false → T.isIntegral = false → T.isFloat = false →
      get_type T = VariableType.Invalid) ∧
    (get_type T ≠ VariableType.Invalid → type_size (get_type T) = T.size) := by
  obtain ⟨hb, hi⟩ := h
  refine ⟨?_, ?_, ?_, ?_, ?_⟩
  · intro h1
    simp [get_type, h1]
  · intro h1 h2
    simp [get_type, h1, h2]
  · intro h1
    have h2 : T.isIntegral = false := by
      cases hI : T.isIntegral with
      | false => rfl
      | true => exact absurd h1 (by simp [hi hI])
    have h3 : T.isBool = false := by
      cases hB : T.isBool with
      | false => rfl
      | true => exact absurd h2 (by simp [(hb hB).1])
    simp [get_type, h1, h2, h3]
  · intro h1 h2 h3
    simp [get_type, h1, h2, h3]
  · intro hne
    unfold get_type at hne ⊢
    by_cases h1 : T.isBool = true
    · obtain ⟨_, _, hsz⟩ := hb h1
      simp [h1, type_size, hsz]
    · simp only [Bool.not_eq_true] at h1
      by_cases h2 : T.isIntegral = true
      · simp only [h1, h2, if_true, if_false, Bool.false_eq_true] at hne ⊢
        rcases Nat.decEq T.size 1 with hs1 | hs1 <;>
          rcases Nat.decEq T.size 2 with hs2 | hs2 <;>
            rcases Nat.decEq T.size 4 with hs4 | hs4 <;>
              rcases Nat.decEq T.size 8 with hs8 | hs8 <;>
                simp_all [type_size] <;> cases hS : T.isSigned <;> simp_all [type_size]
      · simp only [Bool.not_eq_true] at h2
        by_cases h3 : T.isFloat = true
        · simp only [h1, h2, h3, if_true, if_false, Bool.false_eq_true] at hne ⊢
          rcases Nat.decEq T.size 2 with hs2 | hs2 <;>
            rcases Nat.decEq T.size 4 with hs4 | hs4 <;>
              rcases Nat.decEq T.size 8 with hs8 | hs8 <;>
                simp_all [type_size]
        · simp only [Bool.not_eq_true] at h3
          simp [h1, h2, h3] at hne

/-- Claim C1 witness: the classification theorem instantiated at the
concrete types `bool`, `uint32_t`, `int16_t` and `float`. -/
theorem get_type_classifies_witness :
    (get_type cppBool = VariableType.Bool ∧
       type_size (get_type cppBool) = cppBool.size) ∧
    (get_type cppUInt32 = VariableType.UInt32 ∧
       type_size (get_type cppUInt32) = cppUInt32.size) ∧
    (get_type cppInt16 = VariableType.Int16 ∧
       type_size (get_type cppInt16) = cppInt16.size) ∧
    (get_type cppFloat32 = VariableType.Float32 ∧
       type_size (get_type cppFloat32) = cppFloat32.size) := by
  have h1 := get_type_classifies cppBool (by decide)
  have h2 := get_type_classifies cppUInt32 (by decide)
  have h3 := get_type_classifies cppInt16 (by decide)
  have h4 := get_type_classifies cppFloat32 (by decide)
  refine ⟨⟨h1.1 rfl, ?_⟩, ⟨?_, ?_⟩, ⟨?_, ?_⟩, ⟨?_, ?_⟩⟩
  · exact h1.2.2.2.2 (by decide)
  · exact (h2.2.1 rfl rfl).trans (by decide)
  · exact h2.2.2.2.2 (by decide)
  · exact (h3.2.1 rfl rfl).trans (by decide)
  · exact h3.2.2.2.2 (by decide)
  · exact (h4.2.2.1 rfl).trans (by decide)
  · exact h4.2.2.2.2 (by decide)

theorem findVal_insertReplace_self {α : Type} (n : String) (b : α) :
    ∀ l : List (String × α), findVal n (insertReplace n b l) = some b := by
  intro l
  induction l with
  | nil => simp [insertReplace, findVal]
  | cons hd tl ih =>
      obtain ⟨k, v⟩ := hd
      by_cases hk : k = n
      · simp [insertReplace, hk, findVal]
      · simp [insertReplace, hk, findVal, ih]

theorem mem_keys_insertReplace {α : Type} (n m : String) (b : α) :
    ∀ l : List (String × α),
      m ∈ (insertReplace n b l).map Prod.fst → m = n ∨ m ∈ l.map Prod.fst := by
  intro l
  induction l with
  | nil => simp [insertReplace]
  | cons hd tl ih =>
      obtain ⟨k, v⟩ := hd
      rw [insertReplace]
      by_cases hk : k = n
      · rw [if_pos hk]
        intro h
        simp only [List.map_cons, List.mem_cons] at h ⊢
        rcases h with h | h
        · left; exact h
        · right; right; exact h
      · rw [if_neg hk]
        intro h
        simp only [List.map_cons, List.mem_cons] at h ⊢
        rcases h with h | h
        · right; left; exact h
        · rcases ih h with h' | h'
          · left; exact h'
          · right; right; exact h'

theorem nodup_keys_insertReplace {α : Type} (n : String) (b : α) :
    ∀ l : List (String × α), (l.map Prod.fst).Nodup →
      ((insertReplace n b l).map Prod.fst).Nodup := by
  intro l
  induction l with
  | nil => simp [insertReplace]
  | cons hd tl ih =>
      obtain ⟨k, v⟩ := hd
      intro hl
      simp only [List.map_cons, List.nodup_cons] at hl
      rw [insertReplace]
      by_cases hk : k = n
      · rw [if_pos hk]
        subst hk
        simp only [List.map_cons, List.nodup_cons]
        exact hl
      · rw [if_neg hk]
        simp only [List.map_cons, List.nodup_cons]
        exact ⟨fun hmem => (mem_keys_insertReplace n k b tl hmem).elim hk hl.1, ih hl.2⟩

theorem keyCount_eq_zero_of_not_mem (n : String) (l : List (String × Buffer))
    (h : n ∉ l.map Prod.fst) : keyCount n l = 0 := by
  induction l with
  | nil => rfl
  | cons hd tl ih =>
      obtain ⟨k, v⟩ := hd
      simp only [List.map_cons, List.mem_cons] at h
      push_neg at h
      have hk : ¬ (k = n) := fun he => h.1 he.symm
      simp only [keyCount, List.filter_cons, decide_eq_true_eq, hk, if_false]
      simpa [keyCount] using ih h.2

theorem keyCount_insertReplace (n : String) (b : Buffer) :
    ∀ l : List (String × Buffer), (l.map Prod.fst).Nodup →
      keyCount n (insertReplace n b l) = 1 := by
  intro l
  induction l with
  | nil => simp [insertReplace, keyCount]
  | cons hd tl ih =>
      obtain ⟨k, v⟩ := hd
      intro hl
      simp only [List.map_cons, List.nodup_cons] at hl
      rw [insertReplace]
      by_cases hk : k = n
      · rw [if_pos hk]
        subst hk
        have h0 : keyCount k tl = 0 := keyCount_eq_zero_of_not_mem k tl hl.1
        unfold keyCount at h0 ⊢
        rw [List.filter_cons_of_pos (by simp)]
        simp [h0]
      · rw [if_neg hk]
        unfold keyCount at ih ⊢
        rw [List.filter_cons_of_neg (by simp [hk])]
        exact ih hl.2

/-- Claim C2: two successive `set_buffer` calls with the same name leave
exactly one registry entry for that name, carrying the second call's dtype,
ndim, shape and payload metadata; the name's binding is replaced in place.
Exceptions in the C++ code leave the object unchanged, which the model
renders by returning an error without a new state. -/
theorem set_buffer_replaces (s : Shader) (name : String)
    (d1 : VariableType) (nd1 : Nat) (sh1 : Arr3) (p1 : Option Nat)
    (d2 : VariableType) (nd2 : Nat) (sh2 : Arr3) (p2 : Option Nat)
    (s2 : Shader)
    (hnodup : (s.m_buffers.map Prod.fst).Nodup)
    (h : (s.set_buffer name d1 nd1 sh1 p1).bind
           (fun s1 => s1.set_buffer name d2 nd2 sh2 p2) = Except.ok s2) :
    keyCount name s2.m_buffers = 1 ∧
    findVal name s2.m_buffers =
      (findVal name s.declared).map
        (fun bt => ⟨bt, d2, nd2, sh2, type_size d2 * sh2.prodTake nd2, true, p2⟩) := by
  unfold Shader.set_buffer at h
  cases hd : findVal name s.declared with
  | none => simp [hd, Except.bind] at h
  | some bt =>
      simp only [hd, Except.bind] at h
      cases h
      constructor
      · exact keyCount_insertReplace name _ _
          (nodup_keys_insertReplace name _ s.m_buffers hnodup)
      · simp [hd, findVal_insertReplace_self]

/-- Claim C2 witness: on a shader declaring a parameter `a`, binding `a`
twice leaves a single registry entry with the second call's metadata. -/
theorem set_buffer_replaces_witness :
    keyCount "a" wShader2.m_buffers = 1 ∧
    findVal "a" wShader2.m_buffers =
      (findVal "a" wShader.declared).map
        (fun bt => ⟨bt, VariableType.Int32, 0, ⟨1, 1, 1⟩,
          type_size VariableType.Int32 * Arr3.prodTake ⟨1, 1, 1⟩ 0, true, some 9⟩) :=
  set_buffer_replaces wShader "a"
    VariableType.Float32 1 ⟨3, 1, 1⟩ (some 7)
    VariableType.Int32 0 ⟨1, 1, 1⟩ (some 9)
    wShader2 (by simp [wShader]) rfl

theorem set_uniform_scalar_eq (s : Shader) (name : String) (ty : NativeType)
    (ptr : Nat) :
    s.set_uniform name (UniformValue.scalar ty ptr) =
      s.set_buffer name (get_type ty) 0 ⟨1, 1, 1⟩ (some ptr) := by
  unfold Shader.set_uniform classify_uniform
  norm_num [sentinel]

theorem set_uniform_builtin_eq (s : Shader) (name : String) (ty : NativeType)
    (len ptr : Nat) :
    s.set_uniform name (UniformValue.builtin ty len ptr) =
      s.set_buffer name (get_type ty) 1 ⟨len, 1, 1⟩ none := by
  unfold Shader.set_uniform classify_uniform
  norm_num [sentinel]

theorem set_uniform_enoki1_eq (s : Shader) (name : String) (ty : NativeType)
    (s0 s1 s2 ptr : Nat) :
    s.set_uniform name (UniformValue.enoki ty 1 s0 s1 s2 ptr) =
      s.set_buffer name (get_type ty) 1 ⟨s0, 1, 1⟩ (some ptr) := by
  unfold Shader.set_uniform classify_uniform
  norm_num [sentinel]

theorem set_uniform_enoki2_eq (s : Shader) (name : String) (ty : NativeType)
    (s0 s1 s2 ptr : Nat) :
    s.set_uniform name (UniformValue.enoki ty 2 s0 s1 s2 ptr) =
      s.set_buffer name (get_type ty) 2 ⟨s0, s1, 1⟩ (some ptr) := by
  unfold Shader.set_uniform classify_uniform
  norm_num [sentinel]

theorem set_uniform_enoki3_eq (s : Shader) (name : String) (ty : NativeType)
    (s0 s1 s2 ptr : Nat) :
    s.set_uniform name (UniformValue.enoki ty 3 s0 s1 s2 ptr) =
      s.set_buffer name (get_type ty) 3 ⟨s0, s1, s2⟩ (some ptr) := by
  unfold Shader.set_uniform classify_uniform
  norm_num [sentinel]

theorem set_uniform_enoki_bad_depth_eq (s : Shader) (name : String)
    (ty : NativeType) (depth s0 s1 s2 ptr : Nat)
    (h1 : depth ≠ 1) (h2 : depth ≠ 2) (h3 : depth ≠ 3) :
    s.set_uniform name (UniformValue.enoki ty depth s0 s1 s2 ptr) =
      Except.error ShaderError.InvalidDimension := by
  unfold Shader.set_uniform classify_uniform
  simp [h1, h2, h3]

theorem set_uniform_other_eq (s : Shader) (name : String) :
    s.set_uniform name UniformValue.other =
      Except.error ShaderError.InvalidDimension := by
  unfold Shader.set_uniform classify_uniform
  simp

theorem set_buffer_ne_invalid_dimension (s : Shader) (name : String)
    (dtype : VariableType) (ndim : Nat) (shape : Arr3) (data : Option Nat) :
    s.set_buffer name dtype ndim shape data ≠
      Except.error ShaderError.InvalidDimension := by
  unfold Shader.set_buffer
  cases hd : findVal name s.declared <;> simp

/-- Claim C3: a scalar value handed to `set_uniform` is forwarded to
`set_buffer` with `ndim = 0`, `shape = {1, 1, 1}`, the dtype produced by the
compile-time classification of the value's type, and a pointer to the value
itself (`data = &value`). -/
theorem set_uniform_scalar_forwarding (s : Shader) (name : String)
    (ty : NativeType) (ptr : Nat) :
    (classify_uniform (UniformValue.scalar ty ptr)).ndim = 0 ∧
    (classify_uniform (UniformValue.scalar ty ptr)).shape = ⟨1, 1, 1⟩ ∧
    (classify_uniform (UniformValue.scalar ty ptr)).vtype = some (get_type ty) ∧
    (classify_uniform (UniformValue.scalar ty ptr)).data = some ptr ∧
    s.set_uniform name (UniformValue.scalar ty ptr) =
      s.set_buffer name (get_type ty) 0 ⟨1, 1, 1⟩ (some ptr) :=
  ⟨rfl, rfl, rfl, rfl, set_uniform_scalar_eq s name ty ptr⟩

/-- Claim C4, counterexample part: for a fixed-size one-dimensional
array-like value, `set_uniform` does produce `ndim = 1`,
`shape[0] = Array::Size` and the element dtype, but the local `data` is
never assigned on the `IsBuiltinArray` branch (shader.h lines 135-138), so
`set_buffer` receives an indeterminate pointer rather than the address of
the value's element storage. -/
theorem set_uniform_builtin_data_unassigned :
    (classify_uniform (UniformValue.builtin cppFloat32 4 7)).ndim = 1 ∧
    (classify_uniform (UniformValue.builtin cppFloat32 4 7)).shape = ⟨4, 1, 1⟩ ∧
    (classify_uniform (UniformValue.builtin cppFloat32 4 7)).vtype =
      some VariableType.Float32 ∧
    (classify_uniform (UniformValue.builtin cppFloat32 4 7)).data = none :=
  ⟨rfl, rfl, rfl, rfl⟩

/-- Claim C5: an Enoki nested array of static depth d in {1, 2, 3} is
forwarded to `set_buffer` with `ndim = d` and `shape[i]` the extent at
nesting level i; in particular a 4x4 float matrix supplied as a depth-2
nested array produces a registry entry with `ndim = 2`,
`shape = [4, 4, 1]` and total byte size `16 * byte_size(Float32)`. -/
theorem set_uniform_enoki_forwarding (s : Shader) (name : String)
    (ty : NativeType) (s0 s1 s2 ptr : Nat) :
    (s.set_uniform name (UniformValue.enoki ty 1 s0 s1 s2 ptr) =
       s.set_buffer name (get_type ty) 1 ⟨s0, 1, 1⟩ (some ptr)) ∧
    (s.set_uniform name (UniformValue.enoki ty 2 s0 s1 s2 ptr) =
       s.set_buffer name (get_type ty) 2 ⟨s0, s1, 1⟩ (some ptr)) ∧
    (s.set_uniform name (UniformValue.enoki ty 3 s0 s1 s2 ptr) =
       s.set_buffer name (get_type ty) 3 ⟨s0, s1, s2⟩ (some ptr)) ∧
    (∀ s' : Shader,
       s.set_uniform name (UniformValue.enoki cppFloat32 2 4 4 1 ptr) =
         Except.ok s' →
       findVal name s'.m_buffers =
         (findVal name s.declared).map
           (fun bt => ⟨bt, VariableType.Float32, 2, ⟨4, 4, 1⟩,
             16 * type_size VariableType.Float32, true, some ptr⟩)) := by
  refine ⟨set_uniform_enoki1_eq s name ty s0 s1 s2 ptr,
    set_uniform_enoki2_eq s name ty s0 s1 s2 ptr,
    set_uniform_enoki3_eq s name ty s0 s1 s2 ptr, ?_⟩
  intro s' h
  rw [set_uniform_enoki2_eq] at h
  unfold Shader.set_buffer at h
  cases hd : findVal name s.declared with
  | none => rw [hd] at h; exact absurd h (by simp)
  | some bt =>
      rw [hd] at h
      simp only [Except.ok.injEq] at h
      subst h
      simp only [hd, Option.map_some]
      rw [findVal_insertReplace_self]
      rfl

/-- Claim C5 witness: uploading a 4x4 float matrix under `mvp` on a fresh
shader yields the expected registry entry. -/
theorem set_uniform_enoki_forwarding_witness :
    findVal "mvp" wMatShader2.m_buffers =
      (findVal "mvp" wMatShader.declared).map
        (fun bt => ⟨bt, VariableType.Float32, 2, ⟨4, 4, 1⟩,
          16 * type_size VariableType.Float32, true, some 5⟩) :=
  (set_uniform_enoki_forwarding wMatShader "mvp" cppFloat32 4 4 1 5).2.2.2
    wMatShader2 rfl

/-- Claim C6: `set_uniform` raises the invalid-dimension error exactly when
the value is neither a scalar, nor a fixed-size one-dimensional array-like,
nor a nested array-like of depth 1 to 3; the throw happens before
`set_buffer` runs (shader.h lines 157-160), so an exception leaves the
registry untouched — rendered in the model by the error depending only on
the value, never on the shader state. -/
theorem set_uniform_invalid_dimension_iff (s : Shader) (name : String)
    (v : UniformValue) :
    s.set_uniform name v = Except.error ShaderError.InvalidDimension ↔
      specClassifiable v = false := by
  cases v with
  | scalar ty ptr =>
      rw [set_uniform_scalar_eq]
      simp only [specClassifiable]
      exact iff_of_false (set_buffer_ne_invalid_dimension s name _ _ _ _) (by simp)
  | builtin ty len ptr =>
      rw [set_uniform_builtin_eq]
      simp only [specClassifiable]
      exact iff_of_false (set_buffer_ne_invalid_dimension s name _ _ _ _) (by simp)
  | enoki ty depth s0 s1 s2 ptr =>
      by_cases h1 : depth = 1
      · subst h1
        rw [set_uniform_enoki1_eq]
        simp only [specClassifiable]
        exact iff_of_false (set_buffer_ne_invalid_dimension s name _ _ _ _) (by simp)
      · by_cases h2 : depth = 2
        · subst h2
          rw [set_uniform_enoki2_eq]
          simp only [specClassifiable]
          exact iff_of_false (set_buffer_ne_invalid_dimension s name _ _ _ _) (by simp)
        · by_cases h3 : depth = 3
          · subst h3
            rw [set_uniform_enoki3_eq]
            simp only [specClassifiable]
            exact iff_of_false (set_buffer_ne_invalid_dimension s name _ _ _ _) (by simp)
          · rw [set_uniform_enoki_bad_depth_eq s name ty depth s0 s1 s2 ptr h1 h2 h3]
            simp [specClassifiable, h1, h2, h3]
  | other =>
      rw [set_uniform_other_eq]
      simp [specClassifiable]

/-- Claim C6 witness: the equivalence instantiated at an unclassifiable
value (the error is raised) and read back through the spec-side
predicate. -/
theorem set_uniform_invalid_dimension_iff_witness :
    wShader.set_uniform "a" UniformValue.other =
      Except.error ShaderError.InvalidDimension ∧
    specClassifiable UniformValue.other = false :=
  ⟨(set_uniform_invalid_dimension_iff wShader "a" UniformValue.other).mpr rfl,
   rfl⟩

/-- Claim C10: whenever `set_uniform` reaches `set_buffer` (the classified
`ndim` is not the sentinel), `ndim` lies in {0, 1, 2, 3}, every shape entry
at a position at or beyond `ndim` equals its initial value 1, and the
product of `shape[0..ndim)` equals the product of all three entries. -/
theorem set_uniform_shape_invariant (v : UniformValue)
    (h : (classify_uniform v).ndim ≠ sentinel) :
    ((classify_uniform v).ndim = 0 ∨ (classify_uniform v).ndim = 1 ∨
      (classify_uniform v).ndim = 2 ∨ (classify_uniform v).ndim = 3) ∧
    ((classify_uniform v).ndim ≤ 0 → (classify_uniform v).shape.a0 = 1) ∧
    ((classify_uniform v).ndim ≤ 1 → (classify_uniform v).shape.a1 = 1) ∧
    ((classify_uniform v).ndim ≤ 2 → (classify_uniform v).shape.a2 = 1) ∧
    (classify_uniform v).shape.prodTake (classify_uniform v).ndim =
      (classify_uniform v).shape.a0 * (classify_uniform v).shape.a1 *
        (classify_uniform v).shape.a2 := by
  cases v with
  | scalar ty ptr =>
      have e : classify_uniform (UniformValue.scalar ty ptr) =
          ⟨⟨1, 1, 1⟩, 0, some ptr, some (get_type ty)⟩ := rfl
      rw [e]
      exact ⟨Or.inl rfl, fun _ => rfl, fun _ => rfl, fun _ => rfl, rfl⟩
  | builtin ty len ptr =>
      have e : classify_uniform (UniformValue.builtin ty len ptr) =
          ⟨⟨len, 1, 1⟩, 1, none, some (get_type ty)⟩ := rfl
      rw [e]
      exact ⟨by simp, by simp, by simp, by simp, by simp [Arr3.prodTake]⟩
  | enoki ty depth s0 s1 s2 ptr =>
      by_cases h1 : depth = 1
      · subst h1
        have e : classify_uniform (UniformValue.enoki ty 1 s0 s1 s2 ptr) =
            ⟨⟨s0, 1, 1⟩, 1, some ptr, some (get_type ty)⟩ := rfl
        rw [e]
        exact ⟨by simp, by simp, by simp, by simp, by simp [Arr3.prodTake]⟩
      · by_cases h2 : depth = 2
        · subst h2
          have e : classify_uniform (UniformValue.enoki ty 2 s0 s1 s2 ptr) =
              ⟨⟨s0, s1, 1⟩, 2, some ptr, some (get_type ty)⟩ := rfl
          rw [e]
          exact ⟨by simp, by simp, by simp, by simp, by simp [Arr3.prodTake]⟩
        · by_cases h3 : depth = 3
          · subst h3
            have e : classify_uniform (UniformValue.enoki ty 3 s0 s1 s2 ptr) =
                ⟨⟨s0, s1, s2⟩, 3, some ptr, some (get_type ty)⟩ := rfl
            rw [e]
            exact ⟨by simp, by simp, by simp, by simp, by simp [Arr3.prodTake]⟩
          · exfalso
            apply h
            show (classify_uniform (UniformValue.enoki ty depth s0 s1 s2 ptr)).ndim
              = sentinel
            unfold classify_uniform
            simp [h1, h2, h3]
  | other => exact absurd rfl h

/-- Claim C10 witness: the shape invariant at a depth-2 Enoki array. -/
theorem set_uniform_shape_invariant_witness :
    ((classify_uniform (UniformValue.enoki cppFloat32 2 4 4 1 5)).ndim = 0 ∨
      (classify_uniform (UniformValue.enoki cppFloat32 2 4 4 1 5)).ndim = 1 ∨
      (classify_uniform (UniformValue.enoki cppFloat32 2 4 4 1 5)).ndim = 2 ∨
      (classify_uniform (UniformValue.enoki cppFloat32 2 4 4 1 5)).ndim = 3) ∧
    ((classify_uniform (UniformValue.enoki cppFloat32 2 4 4 1 5)).ndim ≤ 0 →
      (classify_uniform (UniformValue.enoki cppFloat32 2 4 4 1 5)).shape.a0 = 1) ∧
    ((classify_uniform (UniformValue.enoki cppFloat32 2 4 4 1 5)).ndim ≤ 1 →
      (classify_uniform (UniformValue.enoki cppFloat32 2 4 4 1 5)).shape.a1 = 1) ∧
    ((classify_uniform (UniformValue.enoki cppFloat32 2 4 4 1 5)).ndim ≤ 2 →
      (classify_uniform (UniformValue.enoki cppFloat32 2 4 4 1 5)).shape.a2 = 1) ∧
    (classify_uniform (UniformValue.enoki cppFloat32 2 4 4 1 5)).shape.prodTake
        (classify_uniform (UniformValue.enoki cppFloat32 2 4 4 1 5)).ndim =
      (classify_uniform (UniformValue.enoki cppFloat32 2 4 4 1 5)).shape.a0 *
        (classify_uniform (UniformValue.enoki cppFloat32 2 4 4 1 5)).shape.a1 *
        (classify_uniform (UniformValue.enoki cppFloat32 2 4 4 1 5)).shape.a2 :=
  set_uniform_shape_invariant (UniformValue.enoki cppFloat32 2 4 4 1 5)
    (by decide)

/-- Claim C7: begin/end/draw_array follow the two-state machine with states
Inactive (initial) and Active.  `begin` succeeds only from Inactive and
lands in Active, `end` succeeds only from Active and lands in Inactive with
the registry intact, `draw_array` is valid only while Active, and each
out-of-sequence call reports a state violation; in the C++ code the throw
happens before any mutation, so the object is unchanged, which the model
renders by returning the error without a successor state.  From Inactive,
`begin` additionally requires every declared parameter to be bound
(spec 4.5). -/
theorem shader_state_machine (s : Shader) :
    (s.active = false → s.allBound = true →
      s.begin = Except.ok { s with
        active := true,
        m_buffers := s.m_buffers.map (fun p => (p.1, { p.2 with dirty := false })) }) ∧
    (∀ s' : Shader, s.begin = Except.ok s' → s.active = false ∧ s'.active = true) ∧
    (s.active = true → s.begin = Except.error ShaderError.StateViolation) ∧
    (s.active = true → s.end' = Except.ok { s with active := false }) ∧
    (∀ s' : Shader, s.end' = Except.ok s' →
      s.active = true ∧ s'.active = false ∧ s'.m_buffers = s.m_buffers) ∧
    (s.active = false → s.end' = Except.error ShaderError.StateViolation) ∧
    (s.active = false → ∀ pt o c i,
      s.draw_array pt o c i = Except.error ShaderError.StateViolation) := by
  refine ⟨?_, ?_, ?_, ?_, ?_, ?_, ?_⟩
  · intro ha hb
    unfold Shader.begin
    simp [ha, hb]
  · intro s' h
    unfold Shader.begin at h
    split at h
    · exact absurd h (by simp)
    · split at h
      · rename_i ha _
        simp only [Except.ok.injEq] at h
        subst h
        exact ⟨by simpa using ha, rfl⟩
      · exact absurd h (by simp)
  · intro ha
    unfold Shader.begin
    simp [ha]
  · intro ha
    unfold Shader.end'
    simp [ha]
  · intro s' h
    unfold Shader.end' at h
    split at h
    · rename_i ha
      simp only [Except.ok.injEq] at h
      subst h
      exact ⟨ha, rfl, rfl⟩
    · exact absurd h (by simp)
  · intro ha
    unfold Shader.end'
    simp [ha]
  · intro ha pt o c i
    unfold Shader.draw_array
    simp [ha]

/-- Claim C7 witness: the state machine at an empty inactive shader and an
empty active shader. -/
theorem shader_state_machine_witness :
    wInactive.begin = Except.ok wActive ∧
    wActive.begin = Except.error ShaderError.StateViolation ∧
    wActive.end' = Except.ok wInactive ∧
    wInactive.end' = Except.error ShaderError.StateViolation ∧
    wInactive.draw_array PrimitiveType.Point 0 0 false =
      Except.error ShaderError.StateViolation :=
  ⟨(shader_state_machine wInactive).1 rfl rfl,
   (shader_state_machine wActive).2.2.1 rfl,
   (shader_state_machine wActive).2.2.2.1 rfl,
   (shader_state_machine wInactive).2.2.2.2.2.1 rfl,
   (shader_state_machine wInactive).2.2.2.2.2.2 rfl PrimitiveType.Point 0 0 false⟩

/-- Claim C8: while Active and non-indexed, `draw_array` with a non-strip
Line or Triangle topology reports a usage error and issues no draw when the
count is not a multiple of 2 resp. 3, and succeeds when it is; in particular
count 7 fails and count 9 succeeds for Triangle; Point, LineStrip and
TriangleStrip impose no count-multiple constraint. -/
theorem draw_array_count_multiple (s : Shader) (h : s.active = true)
    (o c : Nat) :
    (c % 2 ≠ 0 → s.draw_array PrimitiveType.Line o c false =
      Except.error ShaderError.InvalidCount) ∧
    (c % 3 ≠ 0 → s.draw_array PrimitiveType.Triangle o c false =
      Except.error ShaderError.InvalidCount) ∧
    (c % 2 = 0 → s.draw_array PrimitiveType.Line o c false = Except.ok ()) ∧
    (c % 3 = 0 → s.draw_array PrimitiveType.Triangle o c false = Except.ok ()) ∧
    (s.draw_array PrimitiveType.Triangle o 7 false =
      Except.error ShaderError.InvalidCount) ∧
    (s.draw_array PrimitiveType.Triangle o 9 false = Except.ok ()) ∧
    (s.draw_array PrimitiveType.Point o c false = Except.ok ()) ∧
    (s.draw_array PrimitiveType.LineStrip o c false = Except.ok ()) ∧
    (s.draw_array PrimitiveType.TriangleStrip o c false = Except.ok ()) := by
  unfold Shader.draw_array
  exact ⟨fun hc => by simp [h, hc], fun hc => by simp [h, hc],
    fun hc => by simp [h, hc], fun hc => by simp [h, hc],
    by simp [h], by simp [h], by simp [h], by simp [h], by simp [h]⟩

/-- Claim C8 witness: Triangle draws with counts 7 and 9 and a Line draw
with count 3 on a concrete active shader. -/
theorem draw_array_count_multiple_witness :
    wActive.draw_array PrimitiveType.Triangle 0 7 false =
      Except.error ShaderError.InvalidCount ∧
    wActive.draw_array PrimitiveType.Triangle 0 9 false = Except.ok () ∧
    wActive.draw_array PrimitiveType.Line 0 3 false =
      Except.error ShaderError.InvalidCount ∧
    wActive.draw_array PrimitiveType.Point 0 5 false = Except.ok () :=
  ⟨(draw_array_count_multiple wActive rfl 0 7).2.2.2.2.1,
   (draw_array_count_multiple wActive rfl 0 9).2.2.2.2.2.1,
   (draw_array_count_multiple wActive rfl 0 3).1 (by decide),
   (draw_array_count_multiple wActive rfl 0 5).2.2.2.2.2.2.1⟩

/-- Claim C9: while Active, an indexed `draw_array` requires a buffer bound
under the reserved name `indices` holding unsigned 32-bit integers; without
one the call fails with the missing-required-binding error and no draw is
issued, and after `set_buffer` registers a uint32 `indices` buffer the same
call succeeds. -/
theorem draw_array_indexed_requires_indices (s : Shader) (h : s.active = true)
    (o c : Nat) (hc : c % 3 = 0) :
    (s.hasIndexBuffer = false →
      s.draw_array PrimitiveType.Triangle o c true =
        Except.error ShaderError.MissingBinding) ∧
    (s.hasIndexBuffer = true →
      s.draw_array PrimitiveType.Triangle o c true = Except.ok ()) ∧
    (∀ s' : Shader,
      s.set_buffer "indices" VariableType.UInt32 1 ⟨6, 1, 1⟩ (some 0) =
        Except.ok s' →
      s'.draw_array PrimitiveType.Triangle o c true = Except.ok ()) := by
  refine ⟨?_, ?_, ?_⟩
  · intro hidx
    unfold Shader.draw_array
    simp [h, hc, hidx]
  · intro hidx
    unfold Shader.draw_array
    simp [h, hc, hidx]
  · intro s' hset
    have hact : s'.active = true := by
      unfold Shader.set_buffer at hset
      cases hd : findVal "indices" s.declared with
      | none => rw [hd] at hset; exact absurd hset (by simp)
      | some bt =>
          rw [hd] at hset
          simp only [Except.ok.injEq] at hset
          rw [← hset]
          exact h
    have hidx : s'.hasIndexBuffer = true := by
      unfold Shader.set_buffer at hset
      cases hd : findVal "indices" s.declared with
      | none => rw [hd] at hset; exact absurd hset (by simp)
      | some bt =>
          rw [hd] at hset
          simp only [Except.ok.injEq] at hset
          rw [← hset]
          unfold Shader.hasIndexBuffer
          rw [findVal_insertReplace_self]
          rfl
    unfold Shader.draw_array
    simp [hact, hc, hidx]

/-- Claim C9 witness: on an active shader declaring `indices`, the indexed
Triangle draw fails while no index buffer is bound and succeeds after a
6-element uint32 `indices` buffer is registered. -/
theorem draw_array_indexed_requires_indices_witness :
    wIdxShader.draw_array PrimitiveType.Triangle 0 6 true =
      Except.error ShaderError.MissingBinding ∧
    wIdxShader2.draw_array PrimitiveType.Triangle 0 6 true = Except.ok () :=
  ⟨(draw_array_indexed_requires_indices wIdxShader rfl 0 6 rfl).1 rfl,
   (draw_array_indexed_requires_indices wIdxShader rfl 0 6 rfl).2.2
     wIdxShader2 rfl⟩

end Nanogui
